import Mathlib

/-!
Shallow embedding of `src/lv_port_fs/lv_port_fs.c`, the LVGL-v9 filesystem
adapter over ESP32 LittleFS.  Paths and buffers are modelled as `List Char`
(C strings up to their NUL terminator), machine counts as `Nat`, the
`lv_fs_res_t` subset actually produced by the adapter as a two-valued result
type, and each `FILE *` / `DIR *` handle as an `Option` whose `none` is the
NULL (or already-released) pointer.  The outcomes of the underlying C-library
calls (`fread`, `fwrite`, `fseek`, `ftell`, `readdir`) are environment inputs
carried in the handle payload or passed as parameters.
-/

set_option autoImplicit false

/-- The two `lv_fs_res_t` values the adapter ever returns:
`LV_FS_RES_OK` and `LV_FS_RES_UNKNOWN`. -/
inductive LvFsRes where
  | ok
  | unknown
  deriving DecidableEq

/-- The NUL character terminating C strings. -/
def nulChar : Char := Char.ofNat 0

/-- Drive-letter stripping in `fs_open` (line 118):
`if (p[1] == ':') p += 2;`.  For a string of length `< 2` the C code reads
the terminator (or one past it) and finds no `':'`, so nothing is stripped. -/
def stripDrive (p : List Char) : List Char :=
  match p with
  | c0 :: c1 :: rest => if c1 = ':' then rest else c0 :: c1 :: rest
  | other => other

/-- Mount-point prepending shared by the bodies of `fs_open` (lines 120-125)
and `fs_dir_open` (lines 269-271):
`snprintf(buf, 256, LV_FS_PATH "%s", p)` when `*p == '/'`, else
`snprintf(buf, 256, LV_FS_PATH "/%s", p)`.  `snprintf` truncates the result
to the 255 characters that fit in the 256-byte buffer.  `LV_FS_PATH` is the
mount-point constant from the (external) header, kept as the parameter
`lvFsPath`. -/
def prependMount (lvFsPath p : List Char) : List Char :=
  if p.head? = some '/' then (lvFsPath ++ p).take 255
  else (lvFsPath ++ '/' :: p).take 255

/-- Path translation performed by `fs_open` (lines 117-125): strip a
drive-letter prefix, then prepend the mount point. -/
def translateOpen (lvFsPath path : List Char) : List Char :=
  prependMount lvFsPath (stripDrive path)

/-- Path translation performed by `fs_dir_open` (lines 269-271): the mount
point is prepended to `path` as given; no drive-letter stripping occurs. -/
def translateDir (lvFsPath path : List Char) : List Char :=
  prependMount lvFsPath path

/-- The `lv_fs_mode_t` flags of the `mode` argument of `fs_open`:
`LV_FS_MODE_WR` and `LV_FS_MODE_RD` bits. -/
structure LvFsMode where
  wr : Bool
  rd : Bool
  deriving DecidableEq

/-- Mode-string selection in `fs_open` (line 127):
`(mode & LV_FS_MODE_WR) ? "wb" : "rb"`. -/
def modeString (mode : LvFsMode) : List Char :=
  if mode.wr then ("wb").data else ("rb").data

/-- Abstract view of the mounted store: resolved path to file contents
(bytes), `none` when no file exists at that path. -/
def FsMap : Type := List Char → Option (List Nat)

/-- Modelled from the C standard library contract of `fopen` for the only two
mode strings the adapter uses (`fopen` itself is libc, not repository code):
mode `"wb"` creates or truncates the file at `path` to empty contents and
yields a handle on those contents; mode `"rb"` leaves the store untouched and
succeeds exactly when a file exists at `path`.  OS-level failures of `"wb"`
(e.g. a full disk) are outside the model. -/
def fopenModel (fs : FsMap) (path : List Char) (mode : List Char) :
    Option (List Nat) × FsMap :=
  if mode = ("wb").data then (some [], Function.update fs path (some []))
  else (fs path, fs)

/-- `fs_open` (lines 113-135): translate the path, pick `"wb"` or `"rb"` from
the write bit, and forward to `fopen`.  Returns the handle (`none` = NULL on
failure) and the resulting store. -/
def fs_open (lvFsPath : List Char) (fs : FsMap) (path : List Char)
    (mode : LvFsMode) : Option (List Nat) × FsMap :=
  fopenModel fs (translateOpen lvFsPath path) (modeString mode)

/-- `fs_close` (lines 146-152): `UNKNOWN` on a NULL handle, otherwise
`fclose` and `OK`.  The handle parameter is the untyped `void * file_p`;
the second component models the stream after the call: `fclose` releases it,
so a closed handle behaves as NULL from then on. -/
def fs_close {α : Type} (file_p : Option α) : LvFsRes × Option α :=
  match file_p with
  | none => (.unknown, none)
  | some _ => (.ok, none)

/-- Environment outcome of the single `fread` call made by `fs_read`:
the count it returned and the `feof`/`ferror` flags observed afterwards. -/
structure ReadSt where
  n : Nat
  eof : Bool
  err : Bool
  deriving DecidableEq

set_option linter.unusedVariables false in
/-- `fs_read` (lines 166-180): `UNKNOWN` on a NULL handle (the caller's `*br`
slot, passed in as `br`, is then left untouched); otherwise `*br = n`, and on
a zero count `feof` yields `OK`, else `ferror` yields `UNKNOWN`, else flow
falls through to `OK`.  The second component is the final `*br`.  `btr` (the
bound passed to `fread`) is carried for fidelity; the count the call actually
returned is the environment input `st.n`. -/
def fs_read (file_p : Option ReadSt) (btr : Nat) (br : Nat) : LvFsRes × Nat :=
  match file_p with
  | none => (.unknown, br)
  | some st =>
    if st.n = 0 then
      if st.eof then (.ok, st.n)
      else if st.err then (.unknown, st.n)
      else (.ok, st.n)
    else (.ok, st.n)

/-- Environment outcome of the single `fwrite` call made by `fs_write`:
the count it returned and the `ferror` flag observed afterwards. -/
structure WriteSt where
  n : Nat
  err : Bool
  deriving DecidableEq

/-- `fs_write` (lines 194-205): `UNKNOWN` on a NULL handle (the caller's
`*bw` slot, passed in as `bw`, is then left untouched); otherwise `*bw = n`
and `UNKNOWN` exactly when `n < btw && ferror(...)`, else `OK`. -/
def fs_write (file_p : Option WriteSt) (btw : Nat) (bw : Nat) :
    LvFsRes × Nat :=
  match file_p with
  | none => (.unknown, bw)
  | some st =>
    if st.n < btw ∧ st.err = true then (.unknown, st.n) else (.ok, st.n)

/-- The stdio whence constants `SEEK_SET`, `SEEK_CUR`, `SEEK_END`. -/
inductive SeekOrigin where
  | set
  | cur
  | seekEnd
  deriving DecidableEq

/-- Whence mapping in `fs_seek` (lines 224-229): `origin` is initialised to
`SEEK_SET` and the `switch` has no default, so any `lv_fs_whence_t` value
outside `LV_FS_SEEK_SET = 0`, `LV_FS_SEEK_CUR = 1`, `LV_FS_SEEK_END = 2`
leaves `SEEK_SET` in place. -/
def originOf (whence : Nat) : SeekOrigin :=
  match whence with
  | 0 => .set
  | 1 => .cur
  | 2 => .seekEnd
  | _ => .set

/-- `fs_seek` (lines 218-231): `UNKNOWN` on a NULL handle, otherwise `OK`
exactly when the underlying `fseek(f, pos, origin)` returns `0`.  The
environment's `fseek` return value is the function parameter `fseekRet`. -/
def fs_seek (fseekRet : Nat → SeekOrigin → Int) (file_p : Option Unit)
    (pos : Nat) (whence : Nat) : LvFsRes :=
  match file_p with
  | none => .unknown
  | some _ => if fseekRet pos (originOf whence) = 0 then .ok else .unknown

/-- `fs_tell` (lines 243-252): `UNKNOWN` when the handle or the output slot
is NULL, `UNKNOWN` when `ftell` (the `Int` carried by the handle) is
negative, otherwise the position is narrowed to `uint32_t` and stored.  The
second component is the final `*pos_p` slot. -/
def fs_tell (file_p : Option Int) (pos_p : Option Nat) :
    LvFsRes × Option Nat :=
  match file_p with
  | none => (.unknown, pos_p)
  | some pos =>
    match pos_p with
    | none => (.unknown, none)
    | some old =>
      if pos < 0 then (.unknown, some old)
      else (.ok, some (pos.toNat % 2 ^ 32))

/-- A directory handle's payload: the entry names `readdir` has yet to
deliver, in order. -/
def DirSt : Type := List (List Char)

/-- `strncpy(dst, src, n)` of the C library (modelled; libc, not repository
code): copies at most `n` characters of `src` into the first `n` cells of
`dst`, NUL-padding up to `n` when `src` is shorter, and leaves the rest of
`dst` unchanged.  No terminator is written when `src` has `n` or more
characters. -/
def strncpyModel (dst src : List Char) (n : Nat) : List Char :=
  (src.take n ++ List.replicate (n - src.length) nulChar) ++ dst.drop n

/-- The C string held in a buffer: its characters up to the first NUL. -/
def cString (buf : List Char) : List Char :=
  buf.takeWhile (fun c => c ≠ nulChar)

/-- `fs_dir_read` (lines 287-301): `UNKNOWN` on a NULL handle; when
`readdir` is exhausted, `fn[0] = NUL` and `OK`; otherwise
`strncpy(fn, d_name, fn_len - 1)`, `fn[fn_len - 1] = NUL`, and `OK`.
Returns the result code, the buffer `fn` after the call, and the handle's
remaining entries. -/
def fs_dir_read (rddir_p : Option DirSt) (fn : List Char) (fn_len : Nat) :
    LvFsRes × List Char × Option DirSt :=
  match rddir_p with
  | none => (.unknown, fn, none)
  | some [] => (.ok, fn.set 0 nulChar, some [])
  | some (e :: rest) =>
    (.ok, (strncpyModel fn e (fn_len - 1)).set (fn_len - 1) nulChar,
      some rest)

/-- `fs_dir_close` (lines 312-318): `UNKNOWN` on a NULL handle, otherwise
`closedir` and `OK`.  As with `fs_close`, the second component models the
cursor after the call: released, hence NULL-like. -/
def fs_dir_close {α : Type} (rddir_p : Option α) : LvFsRes × Option α :=
  match rddir_p with
  | none => (.unknown, none)
  | some _ => (.ok, none)

/-- `ESP_OK`, the success value of `esp_err_t`. -/
def ESP_OK : Int := 0

/-- Environment outcomes of the two ESP-IDF calls made during startup:
the return values of `esp_vfs_littlefs_register` and `esp_littlefs_info`. -/
structure InitEnv where
  mountRet : Int
  infoRet : Int
  deriving DecidableEq

/-- Observable effects of `fs_init`. -/
structure FsInitEffects where
  mountErrorLogged : Bool
  infoQueried : Bool
  deriving DecidableEq

/-- `fs_init` (lines 80-99): register (mount) LittleFS; on a non-`ESP_OK`
return, log the failure and return early, skipping the partition-info
query. -/
def fs_init (env : InitEnv) : FsInitEffects :=
  if env.mountRet ≠ ESP_OK then
    { mountErrorLogged := true, infoQueried := false }
  else
    { mountErrorLogged := false, infoQueried := true }

/-- Observable effects of `lv_port_fs_init`. -/
structure PortInitEffects where
  fsInit : FsInitEffects
  registered : Bool
  deriving DecidableEq

/-- `lv_port_fs_init` (lines 52-72): call `fs_init`, then unconditionally
fill in the driver callbacks and call `lv_fs_drv_register` — registration
happens whatever `fs_init` observed. -/
def lv_port_fs_init (env : InitEnv) : PortInitEffects :=
  { fsInit := fs_init env, registered := true }

/-! Helper lemmas about C-string buffers. -/

/-- Reading a buffer that is a NUL-free block followed by a NUL terminator
recovers exactly the block. -/
theorem cString_append_nul (A rest : List Char) (h : ∀ c ∈ A, c ≠ nulChar) :
    cString (A ++ nulChar :: rest) = A := by
  induction A with
  | nil => simp [cString]
  | cons a A ih =>
    have ha : a ≠ nulChar := h a (List.mem_cons_self a A)
    have ih' := ih (fun c hc => h c (List.mem_cons_of_mem a hc))
    simpa [cString, List.takeWhile_cons, ha] using ih'

/-- The C string read from a buffer with a NUL at depth `A.length` never
extends past that terminator. -/
theorem cString_length_le (A rest : List Char) :
    (cString (A ++ nulChar :: rest)).length ≤ A.length := by
  induction A with
  | nil => simp [cString]
  | cons a A ih =>
    by_cases ha : a = nulChar
    · subst ha
      simp [cString, List.takeWhile_cons]
    · simpa [cString, List.takeWhile_cons, ha] using ih

/-- The head block written by `strncpyModel` has length exactly `n`. -/
theorem strncpy_head_length (e : List Char) (n : Nat) :
    (e.take n ++ List.replicate (n - e.length) nulChar).length = n := by
  simp only [List.length_append, List.length_take, List.length_replicate]
  omega

/-- NUL padding followed by one more NUL is one longer NUL padding. -/
theorem replicate_nul_shift (pad : Nat) (rest : List Char) :
    List.replicate pad nulChar ++ nulChar :: rest
      = nulChar :: (List.replicate pad nulChar ++ rest) := by
  induction pad with
  | zero => rfl
  | succ k ih => simpa [List.replicate_succ] using ih

/-! Claim theorems. -/

/-- C3: each handle is a two-state machine.  On the NULL (never-opened or
already-released) handle every one of the seven handle-taking callbacks
returns `LV_FS_RES_UNKNOWN`; `fs_close` / `fs_dir_close` are the only
operations that release a live handle, the release is terminal, and any
operation applied after it again returns `LV_FS_RES_UNKNOWN`. -/
theorem handle_state_machine :
    ((fs_close (none : Option ReadSt)).1 = LvFsRes.unknown)
    ∧ (∀ btr br, (fs_read none btr br).1 = LvFsRes.unknown)
    ∧ (∀ btw bw, (fs_write none btw bw).1 = LvFsRes.unknown)
    ∧ (∀ f pos w, fs_seek f none pos w = LvFsRes.unknown)
    ∧ (∀ slot, (fs_tell none slot).1 = LvFsRes.unknown)
    ∧ (∀ fn fl, (fs_dir_read none fn fl).1 = LvFsRes.unknown)
    ∧ ((fs_dir_close (none : Option DirSt)).1 = LvFsRes.unknown)
    ∧ (∀ st : ReadSt, (fs_close (some st)).2 = none)
    ∧ (∀ st : WriteSt, (fs_close (some st)).2 = none)
    ∧ (∀ d : DirSt, (fs_dir_close (some d)).2 = none)
    ∧ (∀ (st : ReadSt) btr br,
        (fs_read (fs_close (some st)).2 btr br).1 = LvFsRes.unknown)
    ∧ (∀ (st : WriteSt) btw bw,
        (fs_write (fs_close (some st)).2 btw bw).1 = LvFsRes.unknown)
    ∧ (∀ (st : ReadSt), (fs_close (fs_close (some st)).2).1 = LvFsRes.unknown)
    ∧ (∀ (d : DirSt) fn fl,
        (fs_dir_read (fs_dir_close (some d)).2 fn fl).1 = LvFsRes.unknown) :=
  ⟨rfl, fun _ _ => rfl, fun _ _ => rfl, fun _ _ _ => rfl, fun _ => rfl,
    fun _ _ => rfl, rfl, fun _ => rfl, fun _ => rfl, fun _ => rfl,
    fun _ _ _ => rfl, fun _ _ _ => rfl, fun _ => rfl, fun _ _ _ => rfl⟩

/-- C9: when `fs_read` or `fs_write` rejects a NULL handle, the
caller-supplied count slot is returned untouched, while on every non-NULL
path the slot is overwritten with the count the underlying call returned. -/
theorem null_handle_leaves_count_slot :
    (∀ btr br, fs_read none btr br = (LvFsRes.unknown, br))
    ∧ (∀ btw bw, fs_write none btw bw = (LvFsRes.unknown, bw))
    ∧ (∀ st btr br, (fs_read (some st) btr br).2 = st.n)
    ∧ (∀ st btw bw, (fs_write (some st) btw bw).2 = st.n) := by
  refine ⟨fun _ _ => rfl, fun _ _ => rfl, fun st btr br => ?_,
    fun st btw bw => ?_⟩
  · obtain ⟨n, eof, err⟩ := st
    cases n <;> cases eof <;> cases err <;> rfl
  · simp only [fs_write]
    split <;> rfl

/-- C5: a non-NULL `fs_write` returns `LV_FS_RES_UNKNOWN` exactly when the
written count fell short of the request and the stream reports an error;
in every case the actual count lands in the bytes-written slot. -/
theorem fs_write_result_spec (st : WriteSt) (btw bw : Nat) :
    ((fs_write (some st) btw bw).1 = LvFsRes.unknown
      ↔ (st.n < btw ∧ st.err = true))
    ∧ (fs_write (some st) btw bw).2 = st.n := by
  simp only [fs_write]
  constructor
  · split
    case isTrue h => simpa using h
    case isFalse h => simpa using h
  · split <;> rfl

/-- C8: `fs_dir_read` on a live handle whose cursor is exhausted — in
particular the very first call on an empty directory — stores the empty
name and reports `LV_FS_RES_OK`, not an error code. -/
theorem dir_read_exhausted_ok (fn : List Char) (fn_len : Nat) :
    (fs_dir_read (some ([] : DirSt)) fn fn_len).1 = LvFsRes.ok
    ∧ cString ((fs_dir_read (some ([] : DirSt)) fn fn_len).2.1) = []
    ∧ (fs_dir_read (some ([] : DirSt)) fn fn_len).2.2 = some [] := by
  refine ⟨rfl, ?_, rfl⟩
  cases fn with
  | nil => rfl
  | cons c rest => simp [fs_dir_read, cString, List.set]

/-- Drive stripping is inert on a path whose second character is not a
colon. -/
theorem stripDrive_eq_of_no_colon (p : List Char) (h : p[1]? ≠ some ':') :
    stripDrive p = p := by
  match p with
  | [] => rfl
  | [c] => rfl
  | c0 :: c1 :: rest =>
    have hc : c1 ≠ ':' := by simpa using h
    simp [stripDrive, hc]

/-- C1 (amended): for every abstract path whose second character is not a
colon, the translation used by `fs_open` resolves the drive-prefixed and
bare forms to the same underlying path, and on such unprefixed paths it
coincides with the translation used by `fs_dir_open`; `fs_dir_open` itself
performs no drive-letter stripping, so the two translations differ on
drive-prefixed paths (see the counterexample). -/
theorem translate_drive_invariance (lvFsPath : List Char) (x : Char)
    (p : List Char) (h : p[1]? ≠ some ':') :
    translateOpen lvFsPath (x :: ':' :: p) = translateOpen lvFsPath p
    ∧ translateOpen lvFsPath p = translateDir lvFsPath p := by
  have hp : stripDrive p = p := stripDrive_eq_of_no_colon p h
  have hx : stripDrive (x :: ':' :: p) = p := by simp [stripDrive]
  constructor
  · simp only [translateOpen]
    rw [hx, hp]
  · simp only [translateOpen, translateDir]
    rw [hp]

/-- C1 counterexample: at mount point `"/littlefs"` the `fs_open` and
`fs_dir_open` translations disagree on the drive-prefixed path
`"S:/a.png"`, and the `fs_dir_open` translation is not drive-prefix
invariant. -/
theorem translate_open_dir_disagree :
    translateOpen ("/littlefs").data ("S:/a.png").data
      ≠ translateDir ("/littlefs").data ("S:/a.png").data
    ∧ translateDir ("/littlefs").data ("S:/a.png").data
      ≠ translateDir ("/littlefs").data ("/a.png").data := by
  exact ⟨by decide, by decide⟩

/-- Witness for the amended C1 theorem at a concrete mount and path. -/
theorem translate_drive_invariance_witness :
    translateOpen ("/littlefs").data ('S' :: ':' :: ("/a.png").data)
      = translateOpen ("/littlefs").data ("/a.png").data
    ∧ translateOpen ("/littlefs").data ("/a.png").data
      = translateDir ("/littlefs").data ("/a.png").data :=
  translate_drive_invariance ("/littlefs").data 'S' ("/a.png").data
    (by decide)

/-- C2 counterexample: with the mount call failing (`ESP_FAIL = -1`), the
failure is logged, yet `lv_port_fs_init` still completes registration — the
claim that registration is left uncompleted is false. -/
theorem mount_failure_still_registers :
    (fs_init ⟨-1, 0⟩).mountErrorLogged = true
    ∧ ¬ (lv_port_fs_init ⟨-1, 0⟩).registered = false := by
  exact ⟨by decide, by decide⟩

/-- C2 (amended): on any mount failure the error is logged and `fs_init`
returns early, skipping the partition-info query; `lv_port_fs_init`
nevertheless completes registration of the callbacks, leaving the driver
registered over an unmounted store. -/
theorem mount_failure_logged_but_registered (env : InitEnv)
    (h : env.mountRet ≠ ESP_OK) :
    (fs_init env).mountErrorLogged = true
    ∧ (fs_init env).infoQueried = false
    ∧ (lv_port_fs_init env).registered = true := by
  simp [fs_init, lv_port_fs_init, h]

/-- Witness for the amended C2 theorem at a concrete failing mount. -/
theorem mount_failure_logged_but_registered_witness :
    (fs_init ⟨-1, 0⟩).mountErrorLogged = true
    ∧ (fs_init ⟨-1, 0⟩).infoQueried = false
    ∧ (lv_port_fs_init ⟨-1, 0⟩).registered = true :=
  mount_failure_logged_but_registered ⟨-1, 0⟩ (by decide)

/-- C4: result discipline of `fs_read` on a non-NULL handle: a zero-byte
read reports `OK` at end-of-stream, `UnknownError` on a stream error, and
`OK` when neither flag is set; a short but non-zero read reports `OK` with
the actual count in the bytes-read slot. -/
theorem fs_read_result_spec (st : ReadSt) (btr br : Nat) :
    (st.n = 0 → st.eof = true → (fs_read (some st) btr br).1 = LvFsRes.ok)
    ∧ (st.n = 0 → st.eof = false → st.err = true →
        (fs_read (some st) btr br).1 = LvFsRes.unknown)
    ∧ (st.n = 0 → st.eof = false → st.err = false →
        (fs_read (some st) btr br).1 = LvFsRes.ok)
    ∧ (0 < st.n → st.n < btr →
        (fs_read (some st) btr br).1 = LvFsRes.ok
        ∧ (fs_read (some st) btr br).2 = st.n) := by
  obtain ⟨n, eof, err⟩ := st
  refine ⟨?_, ?_, ?_, ?_⟩
  · rintro rfl rfl
    rfl
  · rintro rfl rfl rfl
    rfl
  · rintro rfl rfl rfl
    rfl
  · intro h1 h2
    have h1' : 0 < n := h1
    have hn : ¬ n = 0 := by omega
    simp [fs_read, hn]

/-- Witness for the C4 theorem at concrete stream outcomes. -/
theorem fs_read_result_spec_witness :
    (fs_read (some ⟨0, true, false⟩) 4 7).1 = LvFsRes.ok
    ∧ (fs_read (some ⟨0, false, true⟩) 4 7).1 = LvFsRes.unknown
    ∧ (fs_read (some ⟨2, false, false⟩) 4 7).1 = LvFsRes.ok
    ∧ (fs_read (some ⟨2, false, false⟩) 4 7).2 = 2 :=
  ⟨(fs_read_result_spec ⟨0, true, false⟩ 4 7).1 rfl rfl,
    (fs_read_result_spec ⟨0, false, true⟩ 4 7).2.1 rfl rfl rfl,
    ((fs_read_result_spec ⟨2, false, false⟩ 4 7).2.2.2 (by decide)
      (by decide)).1,
    ((fs_read_result_spec ⟨2, false, false⟩ 4 7).2.2.2 (by decide)
      (by decide)).2⟩

/-- C6: `fs_open` picks the stdio mode purely from the write bit — `"wb"`
exactly when the requested mode has write capability, `"rb"` otherwise — so
a write-capability open truncates the target to empty contents and a
read-only open leaves the store untouched. -/
theorem fs_open_mode_spec (lvFsPath : List Char) (fs : FsMap)
    (path : List Char) (mode : LvFsMode) :
    (modeString mode = ("wb").data ↔ mode.wr = true)
    ∧ (mode.wr = true →
        (fs_open lvFsPath fs path mode).2 (translateOpen lvFsPath path)
          = some [])
    ∧ (mode.wr = false → (fs_open lvFsPath fs path mode).2 = fs) := by
  obtain ⟨wr, rd⟩ := mode
  cases wr with
  | false =>
    refine ⟨?_, ?_, ?_⟩
    · have hne : ("rb").data ≠ ("wb").data := by decide
      simp [modeString, hne]
    · intro h
      cases h
    · intro _
      have hne : ("rb").data ≠ ("wb").data := by decide
      simp [fs_open, fopenModel, modeString, hne]
  | true =>
    refine ⟨?_, ?_, ?_⟩
    · simp [modeString]
    · intro _
      simp [fs_open, fopenModel, modeString, Function.update_same]
    · intro h
      cases h

/-- Witness for the C6 theorem at a concrete store, path and both modes. -/
theorem fs_open_mode_spec_witness :
    (fs_open ("/littlefs").data (fun _ => none) ("S:/a.png").data
        ⟨true, false⟩).2 (translateOpen ("/littlefs").data ("S:/a.png").data)
      = some []
    ∧ (fs_open ("/littlefs").data (fun _ => none) ("S:/a.png").data
        ⟨false, true⟩).2 = (fun _ => none) :=
  ⟨(fs_open_mode_spec ("/littlefs").data (fun _ => none) ("S:/a.png").data
      ⟨true, false⟩).2.1 rfl,
    (fs_open_mode_spec ("/littlefs").data (fun _ => none) ("S:/a.png").data
      ⟨false, true⟩).2.2 rfl⟩

/-- C7: a whence value outside `{0, 1, 2}` silently defaults to `SEEK_SET`,
and a non-NULL `fs_seek` returns `OK` exactly when the underlying `fseek`
call returns `0`. -/
theorem fs_seek_spec (fseekRet : Nat → SeekOrigin → Int) (pos whence : Nat) :
    (¬ (whence = 0 ∨ whence = 1 ∨ whence = 2) →
      originOf whence = SeekOrigin.set)
    ∧ (fs_seek fseekRet (some ()) pos whence = LvFsRes.ok
        ↔ fseekRet pos (originOf whence) = 0) := by
  constructor
  · intro h
    match whence with
    | 0 => exact absurd (Or.inl rfl) h
    | 1 => exact absurd (Or.inr (Or.inl rfl)) h
    | 2 => exact absurd (Or.inr (Or.inr rfl)) h
    | n + 3 => rfl
  · simp only [fs_seek]
    split
    case isTrue h => simp [h]
    case isFalse h => simp [h]

/-- Witness for the C7 theorem at the out-of-range whence 7 and an
always-succeeding underlying seek. -/
theorem fs_seek_spec_witness :
    originOf 7 = SeekOrigin.set
    ∧ (fs_seek (fun _ _ => 0) (some ()) 5 7 = LvFsRes.ok
        ↔ (fun _ _ => (0 : Int)) 5 (originOf 7) = 0) :=
  ⟨(fs_seek_spec (fun _ _ => 0) 5 7).1 (by decide),
    (fs_seek_spec (fun _ _ => 0) 5 7).2⟩

/-- C10: `fs_dir_read` on a non-NULL handle with a name buffer of
`fn_len ≥ 1` cells always leaves a NUL terminator within the first `fn_len`
cells, reports a name of at most `fn_len - 1` characters, returns `OK`
(never an error, even when the entry name had to be truncated), and writes
a NUL-free entry name truncated to its first `fn_len - 1` characters. -/
theorem fs_dir_read_buffer_safe (dir : DirSt) (fn : List Char)
    (fn_len : Nat) (h1 : 1 ≤ fn_len) (h2 : fn_len ≤ fn.length) :
    (fs_dir_read (some dir) fn fn_len).1 = LvFsRes.ok
    ∧ (∃ i, i < fn_len
        ∧ ((fs_dir_read (some dir) fn fn_len).2.1)[i]? = some nulChar)
    ∧ (cString ((fs_dir_read (some dir) fn fn_len).2.1)).length ≤ fn_len - 1
    ∧ (∀ e rest, dir = e :: rest → (∀ c ∈ e, c ≠ nulChar) →
        cString ((fs_dir_read (some dir) fn fn_len).2.1)
          = e.take (fn_len - 1)) := by
  cases dir with
  | nil =>
    obtain ⟨f0, ftail, rfl⟩ : ∃ f0 ftail, fn = f0 :: ftail := by
      cases fn with
      | nil => simp at h2; omega
      | cons f0 ftail => exact ⟨f0, ftail, rfl⟩
    have hred : (fs_dir_read (some ([] : DirSt)) (f0 :: ftail) fn_len).2.1
        = nulChar :: ftail := rfl
    refine ⟨rfl, ⟨0, by omega, ?_⟩, ?_, ?_⟩
    · rw [hred]
      simp
    · rw [hred]
      simp [cString]
    · intro e rest heq
      exact absurd heq (by simp)
  | cons e rest =>
    have hred : (fs_dir_read (some (e :: rest)) fn fn_len).2.1
        = (strncpyModel fn e (fn_len - 1)).set (fn_len - 1) nulChar := rfl
    have hlt : fn_len - 1 < fn.length := by omega
    have hA : (e.take (fn_len - 1)
        ++ List.replicate (fn_len - 1 - e.length) nulChar).length
          = fn_len - 1 :=
      strncpy_head_length e (fn_len - 1)
    have hdrop : fn.drop (fn_len - 1)
        = fn[fn_len - 1] :: fn.drop (fn_len - 1 + 1) :=
      List.drop_eq_getElem_cons hlt
    have hbuf : (strncpyModel fn e (fn_len - 1)).set (fn_len - 1) nulChar
        = (e.take (fn_len - 1)
            ++ List.replicate (fn_len - 1 - e.length) nulChar)
          ++ nulChar :: fn.drop (fn_len - 1 + 1) := by
      unfold strncpyModel
      rw [List.set_append_right (fn_len - 1) nulChar (le_of_eq hA), hA,
        Nat.sub_self, hdrop]
      rfl
    refine ⟨rfl, ⟨fn_len - 1, by omega, ?_⟩, ?_, ?_⟩
    · rw [hred, hbuf, List.getElem?_append_right (le_of_eq hA), hA,
        Nat.sub_self]
      simp
    · rw [hred, hbuf]
      calc (cString ((e.take (fn_len - 1)
            ++ List.replicate (fn_len - 1 - e.length) nulChar)
          ++ nulChar :: fn.drop (fn_len - 1 + 1))).length
          ≤ (e.take (fn_len - 1)
            ++ List.replicate (fn_len - 1 - e.length) nulChar).length :=
            cString_length_le _ _
        _ = fn_len - 1 := hA
    · intro e2 rest2 heq hnul
      obtain ⟨rfl, rfl⟩ : e = e2 ∧ rest = rest2 := by
        constructor
        · exact (List.cons.injEq e rest e2 rest2 ▸ heq).1
        · exact (List.cons.injEq e rest e2 rest2 ▸ heq).2
      have hsub : ∀ c ∈ e.take (fn_len - 1), c ≠ nulChar :=
        fun c hc => hnul c (List.take_subset (fn_len - 1) e hc)
      rw [hred, hbuf, List.append_assoc, replicate_nul_shift]
      exact cString_append_nul _ _ hsub

/-- Witness for the C10 theorem: a six-character entry name into a
four-cell buffer is truncated to three characters, NUL-terminated, and
reported with OK. -/
theorem fs_dir_read_buffer_safe_witness :
    (fs_dir_read (some [("abcdef").data]) ("xxxx").data 4).1 = LvFsRes.ok
    ∧ cString ((fs_dir_read (some [("abcdef").data]) ("xxxx").data 4).2.1)
        = ("abc").data := by
  refine ⟨(fs_dir_read_buffer_safe [("abcdef").data] ("xxxx").data 4
    (by decide) (by decide)).1, ?_⟩
  have h := (fs_dir_read_buffer_safe [("abcdef").data] ("xxxx").data 4
    (by decide) (by decide)).2.2.2 ("abcdef").data [] rfl (by decide)
  rw [h]
  decide
